import Mathlib

/-!
Verification of the question generation / validation / selection pipeline of
`demo_content.py` (functions `generate_contextual_questions`,
`verify_column_references`, `validate_questions_with_llm`,
`test_questions_against_semantic_model`, `select_best_questions`).

Shallow embedding conventions:
* Question dictionaries become the `Question` structure.  In the source the
  records are loosely typed dicts; `q.get('category')` on a missing key yields
  `None`, which compares unequal to both `'search'` and `'analytics'` - a
  missing key behaves exactly like an unknown string, so `category` and
  `difficulty` are plain strings here (the empty string plays the role of a
  missing key).  The optional `referenced_columns` key is an `Option`.
* All calls to the external text-generation service
  (`SNOWFLAKE.CORTEX.COMPLETE`, via `call_cortex_with_retry` or `session.sql`)
  are modelled by oracle parameters: the spec (section 5) states that the core
  only reacts to success, parse-failure, or exception outcomes of the external
  adapter, so each call site receives the already-classified outcome of its
  call.  For the validator call this is `ValidatorOutcome` (exception, empty
  response, JSON parse failure, or a parsed verdict); for generator calls it is
  `GenOutcome` (exception, no JSON array found, or the parsed question list);
  for the per-question semantic test it is `SemResp` (a YES answer, a non-YES
  answer, or an error).  Verdict entries are integers: the validation prompt
  requests `{"valid_question_numbers": [...]}` and `json.loads` yields Python
  ints for JSON integer literals.
* Python `str.upper()` is modelled by `pyUpper` (per-character
  `Char.toUpper`; identical on the ASCII column names the generator
  produces).
* Streamlit display calls (`st.info`, `st.error`, ...) have no effect on the
  returned data and are dropped; the `st.session_state` records that the
  pipeline writes for debugging are modelled as explicit fields of the returned
  structures where a claim mentions them.
* Pass rates are values of `ℚ` (the Python floats involved are quotients of
  small integers; zero / nonzero status agrees).
-/

/-- A question record (`Dict[str, Any]` in the source).  `referenced_columns =
none` models the absence of the `'referenced_columns'` key. -/
structure Question where
  text : String
  category : String := ""
  difficulty : String := ""
  referenced_columns : Option (List String) := none
  source : String := ""
  retry_attempt : Nat := 0
deriving DecidableEq, Repr

/-- One column of a rich table context (only the fields the embedded control
flow reads; the remaining metadata fields feed prompt strings only). -/
structure ColumnCtx where
  name : String := ""
  type : String := ""
deriving DecidableEq, Repr

/-- One entry of `rich_table_contexts`. -/
structure TableCtx where
  name : String := ""
  columns : List ColumnCtx := []
deriving DecidableEq, Repr

/-- The `semantic_model_info` dict: `view_name = none` models a dict without the
`'view_name'` key. -/
structure SemInfo where
  view_name : Option String := none
deriving DecidableEq, Repr

/-- Outcome of one validator LLM call, as classified by
`validate_questions_with_llm`: the call raised (`err`), the response string was
empty or whitespace (`emptyResp`), `json.loads` failed after stripping markdown
fences (`parseFail`), or a JSON object was parsed whose
`valid_question_numbers` entry (default `[]`) is `nums`. -/
inductive ValidatorOutcome where
  | err
  | emptyResp
  | parseFail
  | verdict (nums : List Int)
deriving DecidableEq, Repr

/-- Outcome of one generator LLM call: the call or `json.loads` raised
(`raise`), the regex `\[.*\]` found no array (`noMatch`), or a question list
was parsed (`parsed`). -/
inductive GenOutcome where
  | raise
  | noMatch
  | parsed (qs : List Question)
deriving DecidableEq, Repr

/-- Outcome of one per-question semantic model probe in
`test_questions_against_semantic_model`: the completion contained `YES`, it did
not, or the query raised. -/
inductive SemResp where
  | yes
  | no
  | err
deriving DecidableEq, Repr

/-- The slice of `debug_info` built by `validate_questions_with_llm` that the
claims read.  `fallback_used := false` models the absence of the
`'fallback_used'` key (the caller reads it with `.get`, so a missing key and
`False` are indistinguishable). -/
structure DebugInfo where
  validation_success : Bool := false
  fallback_used : Bool := false
  validated_count : Nat := 0
deriving DecidableEq, Repr

/-- Python `str.upper()`: uppercase each character (the embedded column names
are ASCII, where this matches Python exactly). -/
def pyUpper (s : String) : String := ⟨s.data.map Char.toUpper⟩

/-- The set of available column names built at the top of
`verify_column_references`: every column name of every table context,
uppercased, skipping names that are empty (`if col_name:` is false for the
empty string). -/
def availableColumns (ctxs : List TableCtx) : List String :=
  ctxs.flatMap fun ctx =>
    ctx.columns.filterMap fun col =>
      if pyUpper col.name = "" then none else some (pyUpper col.name)

/-- The per-question keep test of `verify_column_references`: a question
without the `referenced_columns` key is kept; otherwise every declared column,
uppercased, must be among the available columns. -/
def keepQuestion (allCols : List String) (q : Question) : Bool :=
  match q.referenced_columns with
  | none => true
  | some refs => refs.all fun c => allCols.contains (pyUpper c)

/-- Embedding of `verify_column_references(questions, rich_table_contexts)`
(demo_content.py:1181-1212): with no contexts or no questions the input is
returned unchanged, otherwise the questions are filtered by `keepQuestion`. -/
def verify_column_references (questions : List Question) (ctxs : List TableCtx) :
    List Question :=
  if ctxs.isEmpty || questions.isEmpty then questions
  else questions.filter (keepQuestion (availableColumns ctxs))

/-- The verdict-application loop of `validate_questions_with_llm`
(demo_content.py:2043-2048): for each listed number, if it lies between 1 and
the number of submitted analytics questions the question at that (1-indexed)
position is appended, otherwise the entry is skipped. -/
def selectByVerdict (analytics : List Question) (nums : List Int) : List Question :=
  nums.foldl
    (fun acc num =>
      if 1 ≤ num ∧ num ≤ (analytics.length : Int) then
        acc ++ analytics[(num - 1).toNat]?.toList
      else acc)
    []

/-- Embedding of `validate_questions_with_llm(questions, rich_table_contexts, ...)`
(demo_content.py:1611-2109) as a function of the classified outcome of its one
LLM call.  Mirrors the source: the early returns for empty inputs and for an
all-search batch, the search / non-search partition, the three fallback
branches (empty response, JSON parse failure, exception) that return all
non-search questions followed by the auto-accepted search questions with
`fallback_used = true`, and the verdict branch that keeps the analytics
questions selected by `valid_question_numbers`. -/
def validate_questions_with_llm (questions : List Question) (ctxs : List TableCtx)
    (outcome : ValidatorOutcome) : List Question × DebugInfo :=
  if questions.isEmpty || ctxs.isEmpty then
    (questions, { validation_success := true, validated_count := questions.length })
  else
    let search_questions := questions.filter fun q => q.category == "search"
    let analytics_questions := questions.filter fun q => !(q.category == "search")
    let validated_search := search_questions
    if analytics_questions.isEmpty then
      (questions, { validation_success := true, validated_count := questions.length })
    else
      match outcome with
      | .verdict nums =>
          let combined := selectByVerdict analytics_questions nums ++ validated_search
          (combined, { validation_success := true, validated_count := combined.length })
      | _ =>
          let combined := analytics_questions ++ validated_search
          (combined,
           { validation_success := false, fallback_used := true,
             validated_count := combined.length })

/-- A `failed` entry of `test_questions_against_semantic_model`.  The source
appends `str(e)[:100]` to the error reason; the embedded reason keeps the
fixed prefix only. -/
structure FailedQ where
  question : String
  reason : String
deriving DecidableEq, Repr

/-- Return value of `test_questions_against_semantic_model`. -/
structure SemTestOut where
  answerable : List Question := []
  failed : List FailedQ := []
  skipped : Bool := false
deriving DecidableEq, Repr

/-- Embedding of `test_questions_against_semantic_model(questions, semantic_model_info, ...)`
(demo_content.py:2113-2180): with no semantic model info, or info lacking the
`'view_name'` key, it returns all questions as answerable with
`skipped = true`; otherwise search questions are auto-answerable and each other
question is answerable exactly when its probe response contains YES (a non-YES
response or an error moves it to `failed`).  The returned `pass_rate` feeds
debug display only and is omitted. -/
def test_questions_against_semantic_model (questions : List Question)
    (semInfo : Option SemInfo) (oracle : Question → SemResp) : SemTestOut :=
  match semInfo with
  | none => { answerable := questions, failed := [], skipped := true }
  | some info =>
    match info.view_name with
    | none => { answerable := questions, failed := [], skipped := true }
    | some _ =>
      let step := questions.foldl
        (fun (acc : List Question × List FailedQ) q =>
          if q.category == "search" then (acc.1 ++ [q], acc.2)
          else
            match oracle q with
            | .yes => (acc.1 ++ [q], acc.2)
            | .no =>
                (acc.1,
                 acc.2 ++ [⟨q.text, "Cortex Analyst cannot generate SQL for this question"⟩])
            | .err => (acc.1, acc.2 ++ [⟨q.text, "Error testing question"⟩]))
        ([], [])
      { answerable := step.1, failed := step.2, skipped := false }

/-- Embedding of `select_best_questions(questions, target_count, min_advanced)`
(demo_content.py:2183-2243).  Pools at most `target_count` questions: a pool
that already fits is returned unchanged; otherwise the pool is grouped by
difficulty (category is never consulted), the first `min_advanced` advanced
questions are taken, missing advanced slots are padded with intermediate
questions, the remaining slots are distributed (10% further advanced but at
least one, 60% intermediate, the rest basic), any shortfall is filled from the
leftovers, and the result is truncated to `target_count`.  Slot arithmetic is
in `Nat`: Python's `int(x * 0.1)` / `int(x * 0.6)` on the small non-negative
slot counts that arise equal `x / 10` / `x * 6 / 10`, and truncated `Nat`
subtraction matches because the subtrahends cannot exceed the minuends on
those counts. -/
def select_best_questions (questions : List Question) (target_count : Nat)
    (min_advanced : Nat) : List Question :=
  if questions.length ≤ target_count then questions
  else
    let advanced0 := questions.filter fun q => q.difficulty == "advanced"
    let intermediate0 := questions.filter fun q => q.difficulty == "intermediate"
    let basic0 := questions.filter fun q => q.difficulty == "basic"
    let selected0 := advanced0.take min_advanced
    let needed := min_advanced - selected0.length
    let selected1 :=
      if selected0.length < min_advanced then selected0 ++ intermediate0.take needed
      else selected0
    let advanced1 :=
      if selected0.length < min_advanced then advanced0 else advanced0.drop min_advanced
    let intermediate1 :=
      if selected0.length < min_advanced then intermediate0.drop needed else intermediate0
    let remaining_slots := target_count - selected1.length
    let remaining_advanced_count := min advanced1.length (max 1 (remaining_slots / 10))
    let remaining_intermediate_count := min intermediate1.length (remaining_slots * 6 / 10)
    let remaining_basic_count :=
      min basic0.length (remaining_slots - remaining_advanced_count - remaining_intermediate_count)
    let selected2 := selected1 ++ advanced1.take remaining_advanced_count
      ++ intermediate1.take remaining_intermediate_count ++ basic0.take remaining_basic_count
    let selected3 :=
      if selected2.length < target_count then
        selected2 ++ (advanced1.drop remaining_advanced_count
          ++ intermediate1.drop remaining_intermediate_count
          ++ basic0.drop remaining_basic_count).take (target_count - selected2.length)
      else selected2
    selected3.take target_count

/-- The classified outcomes of every external-service call one run of
`generate_contextual_questions` can issue.  Retry-loop calls are indexed by the
retry attempt number (1-3). -/
structure Oracle where
  targetOutcome : ValidatorOutcome := .err
  gen1 : GenOutcome := .noMatch
  val1 : ValidatorOutcome := .err
  gen2 : GenOutcome := .noMatch
  val2 : ValidatorOutcome := .err
  sem : Question → SemResp := fun _ => .yes
  retryGen : Nat → GenOutcome := fun _ => .noMatch
  retryVal : Nat → ValidatorOutcome := fun _ => .err
  retrySem : Nat → Question → SemResp := fun _ _ => .yes
  targetedGen : GenOutcome := .noMatch
  targetedVal : ValidatorOutcome := .err

/-- Embedding of `generate_questions_with_llm` (demo_content.py:1215-1390) as a function of
its call outcome: on an exception or when no JSON array is found it returns
`[]`; otherwise each parsed question is tagged `source = 'ai'` and the batch is
passed through `verify_column_references` against the rich table contexts. -/
def runGenerate (out : GenOutcome) (ctxs : List TableCtx) : List Question :=
  match out with
  | .raise => []
  | .noMatch => []
  | .parsed qs =>
      verify_column_references (qs.map fun q => { q with source := "ai" }) ctxs

/-- The inline generation of one retry round of `generate_contextual_questions`
(demo_content.py:922-935): an exception or a missing JSON array means the round
makes no progress (`continue`); a parsed batch is tagged with
`source = 'ai'` and the retry attempt number.  Unlike `generate_questions_with_llm`
this inline parser does not run `verify_column_references`. -/
def runRetryRound (attempt : Nat) (out : GenOutcome) : Option (List Question) :=
  match out with
  | .raise => none
  | .noMatch => none
  | .parsed qs =>
      some (qs.map fun q => { q with source := "ai", retry_attempt := attempt })

/-- Count of questions of `acc` whose `category` equals `cat`. -/
def countCategory (acc : List Question) (cat : String) : Nat :=
  (acc.filter fun q => q.category == cat).length

/-- The distribution retry loop of `generate_contextual_questions`
(demo_content.py:861-980): while fewer than 2 analytics or fewer than 2 search
questions have been accumulated and fewer than `MAX_RETRIES = 3` rounds have
run, one more generation round is attempted; a parsed batch is validated, then
(when a semantic model exists and something survived) filtered by the semantic
test, and survivors are appended.  The `fuel` argument is
`MAX_RETRIES - attempt`, so the recursion is structural; the returned number is
the final `retry_attempt` counter (the number of retry rounds executed). -/
def retryLoop (o : Oracle) (ctxs : List TableCtx) (semInfo : Option SemInfo) :
    Nat → Nat → List Question → List Question × Nat
  | 0, attempt, acc => (acc, attempt)
  | fuel + 1, attempt, acc =>
    let analyticsCount := countCategory acc "analytics"
    let searchCount := countCategory acc "search"
    let needsAnalytics := analyticsCount < 2
    let needsSearch := searchCount < 2
    if !(needsAnalytics || needsSearch) then (acc, attempt)
    else
      let attempt' := attempt + 1
      let numAnalyticsNeeded := if needsAnalytics then 3 - analyticsCount else 0
      let numSearchNeeded := if needsSearch then 3 - searchCount else 0
      if numAnalyticsNeeded + numSearchNeeded = 0 then (acc, attempt')
      else
        match runRetryRound attempt' (o.retryGen attempt') with
        | none => retryLoop o ctxs semInfo fuel attempt' acc
        | some qs =>
          let vr := (validate_questions_with_llm qs ctxs (o.retryVal attempt')).1
          let vr2 :=
            if semInfo.isSome && !vr.isEmpty then
              (test_questions_against_semantic_model vr semInfo (o.retrySem attempt')).answerable
            else vr
          let acc' := if !vr2.isEmpty then acc ++ vr2 else acc
          retryLoop o ctxs semInfo fuel attempt' acc'

/-- The `st.session_state['semantic_model_test_results']` record written by the
semantic-test stage of `generate_contextual_questions` (both shapes: the dict
returned by the test, and the all-failed record of the no-model branch). -/
structure SemRecord where
  answerable : List Question := []
  failedQuestions : List Question := []
  failedTests : List FailedQ := []
  skipped : Bool := false
  noSemanticModel : Bool := false
deriving DecidableEq, Repr

/-- The mandatory semantic-test stage of `generate_contextual_questions`
(demo_content.py:807-859): with semantic model info present the candidate list
is tested and, when any test failed, replaced by the answerable sublist; with
no semantic model info the stage records every candidate as failed and empties
the list (`validated_questions = []`). -/
def semanticStage (validated : List Question) (semInfo : Option SemInfo)
    (oracle : Question → SemResp) : List Question × SemRecord :=
  match semInfo with
  | some info =>
    let r := test_questions_against_semantic_model validated (some info) oracle
    let newValidated := if !r.failed.isEmpty then r.answerable else validated
    (newValidated, { answerable := r.answerable, failedTests := r.failed, skipped := r.skipped })
  | none =>
    ([], { failedQuestions := validated, skipped := true, noSemanticModel := true })

/-- The targeted gap-filling generation of `generate_contextual_questions`
(demo_content.py:985-1085): when fewer than 3 advanced analytics questions or
fewer than 3 search questions are present, one more generation call is made; a
parsed batch is tagged `source = 'ai'`, validated, and appended; a parse
failure or exception leaves the list unchanged. -/
def targetedStage (o : Oracle) (ctxs : List TableCtx) (validated : List Question) :
    List Question :=
  let advancedAnalyticsCount :=
    (validated.filter fun q => q.difficulty == "advanced" && q.category == "analytics").length
  let searchCount := countCategory validated "search"
  if advancedAnalyticsCount < 3 || searchCount < 3 then
    match o.targetedGen with
    | .raise => validated
    | .noMatch => validated
    | .parsed qs =>
      let qs' := qs.map fun q => { q with source := "ai" }
      validated ++ (validate_questions_with_llm qs' ctxs o.targetedVal).1
  else validated

/-- The final category/difficulty-balanced selection of
`generate_contextual_questions` (demo_content.py:1101-1135), applied when more
questions than requested survive: 70% analytics (at least 3 advanced when
available) and the rest search, topped up with unused analytics questions when
search falls short.  `int(num_questions * 0.7)` is modelled by
`num * 7 / 10` (equal for the small counts used). -/
def balancedSelect (validated : List Question) (num : Nat) : List Question :=
  let analytics_qs := validated.filter fun q => q.category == "analytics"
  let search_qs := validated.filter fun q => q.category == "search"
  let target_analytics := num * 7 / 10
  let target_search := num - target_analytics
  let selected_analytics :=
    if target_analytics < analytics_qs.length then
      let adv := analytics_qs.filter fun q => q.difficulty == "advanced"
      let inter := analytics_qs.filter fun q => q.difficulty == "intermediate"
      let basic := analytics_qs.filter fun q => q.difficulty == "basic"
      let sel0 := adv.take (min 3 adv.length)
      let sel1 :=
        if 0 < target_analytics - sel0.length then
          sel0 ++ inter.take (target_analytics - sel0.length)
        else sel0
      if 0 < target_analytics - sel1.length then
        sel1 ++ basic.take (target_analytics - sel1.length)
      else sel1
    else analytics_qs.take target_analytics
  let selected_search := search_qs.take target_search
  let combined := selected_analytics ++ selected_search
  if combined.length < num then
    let usedTexts := combined.map Question.text
    let unused := analytics_qs.filter fun q => !(usedTexts.contains q.text)
    combined ++ unused.take (num - combined.length)
  else combined

/-- The final assembly of `generate_contextual_questions`
(demo_content.py:1148-1160): validated target questions come first, followed by
the generated questions whose text does not duplicate a target question's
text. -/
def mergeTargets (targets : List Question) (pool : List Question) : List Question :=
  let targetTexts := targets.map Question.text
  targets ++ pool.filter fun q => !(targetTexts.contains q.text)

/-- The message of the exception raised when target questions fail validation
(demo_content.py:630-635). -/
def targetErrorMsg (failedCount total : Nat) : String :=
  s!"❌ CRITICAL: {failedCount}/{total} target questions are NOT answerable with the generated data. This indicates a mismatch between the demo structure and your requirements. Please try regenerating the demo or revising your questions."

/-- Wrapping of one user-supplied target question string for validation
(demo_content.py:610-613). -/
def mkTargetQuestion (t : String) : Question :=
  { text := t, difficulty := "intermediate", category := "analytics" }

/-- The `final_pass_rate` / `used_fallback` computation of
`generate_contextual_questions` (demo_content.py:786-796): the *final* attempt
is attempt 2 when the retry ran, else attempt 1; if that attempt used the
fallback the reported rate is 0, otherwise it is the validated count over the
target count. -/
def computeFinalPassRate (d1 : DebugInfo) (d2opt : Option DebugInfo)
    (validatedCount num : Nat) : ℚ × Bool :=
  let finalAttempt := d2opt.getD d1
  if finalAttempt.fallback_used then (0, true)
  else (if 0 < num then (validatedCount : ℚ) / (num : ℚ) else 0, false)

/-- The outputs of one run of `generate_contextual_questions` that the claims
read: the returned question list, the `validation_debug` attempt records with
the reported `final_pass_rate` and `used_fallback`, and the number of retry
rounds the distribution loop executed. -/
structure PipelineOut where
  result : List Question
  attempt1 : Option DebugInfo := none
  attempt2 : Option DebugInfo := none
  retryTriggered : Bool := false
  finalPassRate : ℚ := 0
  usedFallback : Bool := false
  retryRounds : Nat := 0
deriving Repr

/-- The body of the `if rich_table_contexts and questions:` block of
`generate_contextual_questions` (demo_content.py:726-1160): attempt-1
validation; accumulative retry (attempt 2) with `select_best_questions` when
attempt 1 fell short of the target; the `final_pass_rate` computation; the
mandatory semantic-test stage; the distribution retry loop; the targeted
gap-filling generation; the balanced final selection when the pool exceeds the
target; and the merge of validated target questions. -/
def pipelineCore (validatedTargets : List Question) (questions : List Question)
    (ctxs : List TableCtx) (semInfo : Option SemInfo) (num : Nat) (o : Oracle) :
    PipelineOut :=
  let v1d := validate_questions_with_llm questions ctxs o.val1
  let v1 := v1d.1
  let d1 := v1d.2
  let step2 : List Question × Option DebugInfo × Bool :=
    if v1.length < num then
      let newQs := runGenerate o.gen2 ctxs
      let v2d := validate_questions_with_llm newQs ctxs o.val2
      (select_best_questions (v1 ++ v2d.1) num 3, some v2d.2, true)
    else (v1, none, false)
  let validatedAfter := step2.1
  let d2opt := step2.2.1
  let rateUsed := computeFinalPassRate d1 d2opt validatedAfter.length num
  let afterSem := (semanticStage validatedAfter semInfo o.sem).1
  let loopOut := retryLoop o ctxs semInfo 3 0 afterSem
  let afterTargeted := targetedStage o ctxs loopOut.1
  let afterSelect :=
    if num < afterTargeted.length then balancedSelect afterTargeted num else afterTargeted
  let final :=
    if !validatedTargets.isEmpty then (mergeTargets validatedTargets afterSelect).take num
    else afterSelect.take num
  { result := final, attempt1 := some d1, attempt2 := d2opt,
    retryTriggered := step2.2.2, finalPassRate := rateUsed.1,
    usedFallback := rateUsed.2, retryRounds := loopOut.2 }

/-- Embedding of `generate_contextual_questions(demo_data, semantic_model_info, ...)`
(demo_content.py:555-1163) as a function of the run's classified external-call
outcomes.  `targets` is `demo_data['target_questions']`; an `Except.error`
models the exception raised when target validation rejects any target
question.  When target validation passes, the initial 2x-sized batch is
generated and, when rich contexts and a non-empty batch are present, the core
block runs; otherwise the raw batch is truncated and returned (URL analysis and
all other prompt-building inputs affect only prompt strings and are omitted). -/
def generate_contextual_questions (targets : List String) (ctxs : List TableCtx)
    (semInfo : Option SemInfo) (num : Nat) (o : Oracle) :
    Except String PipelineOut :=
  let targetStep : Except String (List Question) :=
    if !ctxs.isEmpty && !targets.isEmpty then
      let vt := (validate_questions_with_llm (targets.map mkTargetQuestion) ctxs
        o.targetOutcome).1
      if vt.length < targets.length then
        .error (targetErrorMsg (targets.length - vt.length) targets.length)
      else .ok vt
    else .ok []
  match targetStep with
  | .error e => .error e
  | .ok validatedTargets =>
    let questions := runGenerate o.gen1 ctxs
    if !ctxs.isEmpty && !questions.isEmpty then
      .ok (pipelineCore validatedTargets questions ctxs semInfo num o)
    else
      .ok { result := questions.take num }

/-! Concrete fixtures used by witnesses and counterexamples. -/

/-- Build a question with the given text, category and difficulty. -/
def mkq (t c d : String) : Question := { text := t, category := c, difficulty := d }

/-- A one-table schema context used by concrete runs. -/
def cxCtxs : List TableCtx :=
  [{ name := "T1", columns := [{ name := "REVENUE", type := "NUMBER" }] }]

/-- Helper for the verdict-application loop: the fold accumulates exactly the
in-range selections, in verdict order. -/
theorem selectByVerdict_eq_filterMap (analytics : List Question) (nums : List Int) :
    selectByVerdict analytics nums
      = nums.filterMap (fun n =>
          if 1 ≤ n ∧ n ≤ (analytics.length : Int) then analytics[(n - 1).toNat]?
          else none) := by
  suffices h : ∀ (l : List Int) (acc : List Question),
      l.foldl (fun acc num =>
        if 1 ≤ num ∧ num ≤ (analytics.length : Int) then
          acc ++ analytics[(num - 1).toNat]?.toList
        else acc) acc
      = acc ++ l.filterMap (fun n =>
          if 1 ≤ n ∧ n ≤ (analytics.length : Int) then analytics[(n - 1).toNat]?
          else none) by
    simpa [selectByVerdict] using h nums []
  intro l
  induction l with
  | nil => intro acc; simp
  | cons n rest ih =>
    intro acc
    by_cases h : 1 ≤ n ∧ n ≤ (analytics.length : Int)
    · have hlt : (n - 1).toNat < analytics.length := by omega
      rw [List.foldl_cons, if_pos h,
        List.filterMap_cons_some (by rw [if_pos h, List.getElem?_eq_getElem hlt]), ih,
        List.getElem?_eq_getElem hlt]
      simp
    · rw [List.foldl_cons, if_neg h, List.filterMap_cons_none (by rw [if_neg h]), ih]

/-- C10 (confirmed): every entry of `valid_question_numbers` that is not an
integer between 1 and the number of submitted analytics questions is silently
skipped; the accepted analytics questions are exactly the submitted questions
at the in-range 1-indexed positions, in the order the verdict lists them, and
every accepted question is one of the submitted questions (no out-of-range
entry can select anything else or fail). -/
theorem verdict_index_safety (analytics : List Question) (nums : List Int) :
    selectByVerdict analytics nums
      = nums.filterMap (fun n =>
          if 1 ≤ n ∧ n ≤ (analytics.length : Int) then analytics[(n - 1).toNat]?
          else none)
    ∧ ∀ q ∈ selectByVerdict analytics nums, q ∈ analytics := by
  refine ⟨selectByVerdict_eq_filterMap analytics nums, ?_⟩
  intro q hq
  rw [selectByVerdict_eq_filterMap] at hq
  obtain ⟨n, _, hn⟩ := List.mem_filterMap.mp hq
  split at hn
  · exact List.getElem?_mem hn
  · cases hn

/-- Witness for C10 at a concrete verdict holding the out-of-range entries 0
and 5 and the in-range entries 2 and 1: the question selected by entry 2 is one
of the two submitted questions. -/
theorem verdict_index_safety_witness :
    mkq "A2" "analytics" "basic" ∈ [mkq "A1" "analytics" "basic", mkq "A2" "analytics" "basic"] :=
  (verdict_index_safety [mkq "A1" "analytics" "basic", mkq "A2" "analytics" "basic"]
    [2, 0, 5, 1]).2 (mkq "A2" "analytics" "basic") (by decide)

/-- C3 (confirmed): when the validator call raises, returns an empty response,
or returns something that does not parse as JSON, `validate_questions_with_llm`
returns all non-search questions (in particular every analytics question)
followed by all auto-accepted search questions, records
`fallback_used = true`, and drops nothing: every input question is in the
result.  (The embedding is a total function, so this branch never raises.) -/
theorem validator_fallback_accepts_all (questions : List Question)
    (ctxs : List TableCtx) (outcome : ValidatorOutcome)
    (hq : questions ≠ []) (hc : ctxs ≠ [])
    (ha : questions.filter (fun q => !(q.category == "search")) ≠ [])
    (hout : outcome = .err ∨ outcome = .emptyResp ∨ outcome = .parseFail) :
    (validate_questions_with_llm questions ctxs outcome).1
        = questions.filter (fun q => !(q.category == "search"))
          ++ questions.filter (fun q => q.category == "search")
    ∧ (validate_questions_with_llm questions ctxs outcome).2.fallback_used = true
    ∧ ∀ q ∈ questions, q ∈ (validate_questions_with_llm questions ctxs outcome).1 := by
  have hq' : questions.isEmpty = false := by
    simpa [List.isEmpty_iff] using hq
  have hc' : ctxs.isEmpty = false := by
    simpa [List.isEmpty_iff] using hc
  have ha' : (questions.filter (fun q => !(q.category == "search"))).isEmpty = false := by
    simpa [List.isEmpty_iff] using ha
  have hres : (validate_questions_with_llm questions ctxs outcome).1
        = questions.filter (fun q => !(q.category == "search"))
          ++ questions.filter (fun q => q.category == "search")
      ∧ (validate_questions_with_llm questions ctxs outcome).2.fallback_used = true := by
    unfold validate_questions_with_llm
    rcases hout with h | h | h <;> subst h <;> simp [hq', hc', ha']
  refine ⟨hres.1, hres.2, ?_⟩
  intro q hmem
  rw [hres.1]
  by_cases hcat : q.category == "search"
  · exact List.mem_append_right _ (List.mem_filter.mpr ⟨hmem, hcat⟩)
  · exact List.mem_append_left _ (List.mem_filter.mpr ⟨hmem, by simpa using hcat⟩)

/-- Witness for C3: a parse failure on a two-question batch (one analytics,
one search) returns both questions with the fallback flag set. -/
theorem validator_fallback_accepts_all_witness :
    (validate_questions_with_llm
        [mkq "QA" "analytics" "basic", mkq "QS" "search" "basic"] cxCtxs .parseFail).2.fallback_used
      = true :=
  (validator_fallback_accepts_all
    [mkq "QA" "analytics" "basic", mkq "QS" "search" "basic"] cxCtxs .parseFail
    (by decide) (by decide) (by decide) (Or.inr (Or.inr rfl))).2.1

/-- C5 (confirmed): for every input list, schema context and validator-call
outcome, every question whose `category` is `search` is in the output of
`validate_questions_with_llm`: search questions are partitioned out before the
column-level validation prompt is built and are auto-accepted on every
branch. -/
theorem search_auto_accept (questions : List Question) (ctxs : List TableCtx)
    (outcome : ValidatorOutcome) (q : Question)
    (hq : q ∈ questions) (hcat : q.category = "search") :
    q ∈ (validate_questions_with_llm questions ctxs outcome).1 := by
  have hcat' : (q.category == "search") = true := by simp [hcat]
  simp only [validate_questions_with_llm]
  split
  · exact hq
  · split
    · exact hq
    · split <;>
        exact List.mem_append_right _ (List.mem_filter.mpr ⟨hq, hcat'⟩)

/-- Witness for C5: a search question survives a verdict that accepts no
analytics question. -/
theorem search_auto_accept_witness :
    mkq "QS" "search" "basic" ∈
      (validate_questions_with_llm [mkq "QA" "analytics" "basic", mkq "QS" "search" "basic"]
        cxCtxs (.verdict [])).1 :=
  search_auto_accept [mkq "QA" "analytics" "basic", mkq "QS" "search" "basic"] cxCtxs
    (.verdict []) (mkq "QS" "search" "basic") (by decide) rfl

/-- A question declaring a reference to the empty column name. -/
def cxEmptyRefQ : Question := { text := "q0", referenced_columns := some [""] }

/-- A table context holding a column whose name is the empty string. -/
def cxEmptyColCtx : TableCtx := { name := "T", columns := [{ name := "" }] }

/-- Counterexample to C4: the question declares the column name `""`, which
matches (case-insensitively, indeed verbatim) the name of a column of the
schema context, yet `verify_column_references` drops the question: the set of
available columns is built with `if col_name:` after uppercasing, which skips
empty names, so the claimed kept-iff-every-column-matches equivalence fails. -/
theorem column_verifier_counterexample :
    verify_column_references [cxEmptyRefQ] [cxEmptyColCtx] = []
    ∧ (cxEmptyColCtx.columns.map fun c => pyUpper c.name).contains (pyUpper "") = true := by
  exact ⟨by decide, by decide⟩

/-- C4 (amended): for every question list and non-empty schema context,
`verify_column_references` returns an order-preserving subsequence of the
input; every question lacking a `referenced_columns` declaration is kept; and a
question with a declaration is kept if and only if every declared column name
matches (case-insensitively) some column of some table whose uppercased name is
non-empty (empty column names are skipped when the available-column set is
built). -/
theorem column_verifier_amended (questions : List Question) (ctxs : List TableCtx)
    (hc : ctxs ≠ []) :
    (verify_column_references questions ctxs).Sublist questions
    ∧ (∀ q ∈ questions, q.referenced_columns = none →
        q ∈ verify_column_references questions ctxs)
    ∧ (∀ q ∈ questions, ∀ refs, q.referenced_columns = some refs →
        (q ∈ verify_column_references questions ctxs ↔
          ∀ r ∈ refs, ∃ ctx ∈ ctxs, ∃ col ∈ ctx.columns,
            pyUpper col.name ≠ "" ∧ pyUpper r = pyUpper col.name)) := by
  have hc' : ctxs.isEmpty = false := by simpa [List.isEmpty_iff] using hc
  have hmem : ∀ t : String, (availableColumns ctxs).contains t = true ↔
      ∃ ctx ∈ ctxs, ∃ col ∈ ctx.columns,
        pyUpper col.name ≠ "" ∧ t = pyUpper col.name := by
    intro t
    constructor
    · intro h
      have ht : t ∈ availableColumns ctxs := List.elem_iff.mp h
      simp only [availableColumns, List.mem_flatMap, List.mem_filterMap] at ht
      obtain ⟨ctx, hctx, col, hcol, hcond⟩ := ht
      by_cases hne : pyUpper col.name = ""
      · rw [if_pos hne] at hcond; cases hcond
      · rw [if_neg hne] at hcond
        exact ⟨ctx, hctx, col, hcol, hne, (Option.some.inj hcond).symm⟩
    · rintro ⟨ctx, hctx, col, hcol, hne, ht⟩
      apply List.elem_iff.mpr
      simp only [availableColumns, List.mem_flatMap, List.mem_filterMap]
      exact ⟨ctx, hctx, col, hcol, by rw [if_neg hne, ht]⟩
  by_cases hqe : questions.isEmpty
  · have hnil : questions = [] := List.isEmpty_iff.mp hqe
    subst hnil
    refine ⟨by simp [verify_column_references], by simp, by simp⟩
  · have hv : verify_column_references questions ctxs
        = questions.filter (keepQuestion (availableColumns ctxs)) := by
      simp [verify_column_references, hc', hqe]
    refine ⟨?_, ?_, ?_⟩
    · rw [hv]; exact List.filter_sublist questions
    · intro q hq hnone
      rw [hv]
      exact List.mem_filter.mpr ⟨hq, by simp [keepQuestion, hnone]⟩
    · intro q hq refs hrefs
      rw [hv]
      constructor
      · intro hmemf r hr
        have hkeep := (List.mem_filter.mp hmemf).2
        simp only [keepQuestion, hrefs] at hkeep
        exact (hmem (pyUpper r)).mp (List.all_eq_true.mp hkeep r hr)
      · intro hall
        refine List.mem_filter.mpr ⟨hq, ?_⟩
        simp only [keepQuestion, hrefs]
        exact List.all_eq_true.mpr fun r hr => (hmem (pyUpper r)).mpr (hall r hr)

/-- Witness for C4: a question referencing `revenue` is kept against a context
whose single table has the column `REVENUE`. -/
theorem column_verifier_amended_witness :
    { text := "w", referenced_columns := some ["revenue"] : Question }
      ∈ verify_column_references [{ text := "w", referenced_columns := some ["revenue"] }]
          cxCtxs :=
  ((column_verifier_amended [{ text := "w", referenced_columns := some ["revenue"] }]
      cxCtxs (by decide)).2.2
    { text := "w", referenced_columns := some ["revenue"] } (by decide)
    ["revenue"] rfl).mpr
    (by
      intro r hr
      refine ⟨{ name := "T1", columns := [{ name := "REVENUE", type := "NUMBER" }] },
        by decide, { name := "REVENUE", type := "NUMBER" }, by decide, by decide, ?_⟩
      have hre : r = "revenue" := by simpa using hr
      subst hre
      decide)

/-- An advanced analytics question used by concrete semantic-test runs. -/
def cxAdvQ : Question := mkq "Q1" "analytics" "advanced"

/-- Counterexample to C6: with semantic model info present but lacking a view
name, `test_questions_against_semantic_model` reports the whole candidate set
as answerable (`skipped = true`, `failed = []`) instead of treating it as
failed: one candidate in, one candidate reported answerable, zero failed. -/
theorem semantic_unavailable_counterexample :
    test_questions_against_semantic_model [cxAdvQ] (some { view_name := none })
        (fun _ => .yes)
      = { answerable := [cxAdvQ], failed := [], skipped := true }
    ∧ [cxAdvQ] ≠ ([] : List Question) := by
  exact ⟨rfl, by decide⟩

/-- C6 (amended): when the semantic model info is entirely absent the pipeline
stage discards every candidate (zero answerable) and records the whole
candidate set as failed; but when the info is present without a view name the
test returns the entire candidate set as answerable with `skipped = true`, so
the candidates pass through unchanged rather than being failed. -/
theorem semantic_unavailable_amended (validated : List Question)
    (oracle : Question → SemResp) :
    (semanticStage validated none oracle).1 = []
    ∧ (semanticStage validated none oracle).2.failedQuestions = validated
    ∧ ∀ (info : SemInfo), info.view_name = none →
        test_questions_against_semantic_model validated (some info) oracle
          = { answerable := validated, failed := [], skipped := true } := by
  refine ⟨rfl, rfl, ?_⟩
  intro info hinfo
  simp [test_questions_against_semantic_model, hinfo]

/-- Witness for C6 at a concrete candidate list and a view-name-free info
record. -/
theorem semantic_unavailable_amended_witness :
    test_questions_against_semantic_model [cxAdvQ, mkq "Q2" "search" "basic"]
        (some { view_name := none }) (fun _ => .no)
      = { answerable := [cxAdvQ, mkq "Q2" "search" "basic"], failed := [], skipped := true } :=
  (semantic_unavailable_amended [cxAdvQ, mkq "Q2" "search" "basic"] (fun _ => .no)).2.2
    { view_name := none } rfl

/-- A pool of 14 questions: 3 advanced search, 3 advanced analytics, 5
intermediate analytics, 3 basic analytics. -/
def cxPool : List Question :=
  [mkq "s1" "search" "advanced", mkq "s2" "search" "advanced",
   mkq "s3" "search" "advanced",
   mkq "a1" "analytics" "advanced", mkq "a2" "analytics" "advanced",
   mkq "a3" "analytics" "advanced",
   mkq "i1" "analytics" "intermediate", mkq "i2" "analytics" "intermediate",
   mkq "i3" "analytics" "intermediate", mkq "i4" "analytics" "intermediate",
   mkq "i5" "analytics" "intermediate",
   mkq "b1" "analytics" "basic", mkq "b2" "analytics" "basic",
   mkq "b3" "analytics" "basic"]

/-- Counterexample to C7: `cxPool` exceeds the target of 12 and holds 3
advanced analytics questions, yet the selection holds only 1 of them:
`select_best_questions` groups by difficulty alone and never consults the
category, so the 3 advanced slots are taken by the advanced search
questions that come first in the pool. -/
theorem selector_counterexample :
    12 < cxPool.length
    ∧ 3 ≤ (cxPool.filter fun q => q.difficulty == "advanced" && q.category == "analytics").length
    ∧ ((select_best_questions cxPool 12 3).filter fun q =>
        q.difficulty == "advanced" && q.category == "analytics").length < 3 := by
  refine ⟨by decide, by decide, by decide⟩

/-- C7 (amended): `select_best_questions` returns at most `target_count`
questions; and whenever the pool exceeds `target_count`, holds at least
`min_advanced` advanced-difficulty questions (of any category) and
`min_advanced ≤ target_count`, the selection holds at least `min_advanced`
advanced-difficulty questions.  The function ignores the category axis, so no
analytics-specific minimum holds (the category split is handled by the separate
balanced selection inside `generate_contextual_questions`). -/
theorem selector_amended (pool : List Question) (target minAdv : Nat) :
    (select_best_questions pool target minAdv).length ≤ target
    ∧ (target < pool.length → minAdv ≤ target →
        minAdv ≤ (pool.filter fun q => q.difficulty == "advanced").length →
        minAdv ≤ ((select_best_questions pool target minAdv).filter fun q =>
          q.difficulty == "advanced").length) := by
  constructor
  · unfold select_best_questions
    split
    · assumption
    · simp only [List.length_take]
      exact Nat.min_le_left _ _
  · intro h1 h2 h3
    have h0 : ((pool.filter fun q => q.difficulty == "advanced").take minAdv).length
        = minAdv := by
      simp [List.length_take, Nat.min_eq_left h3]
    have hnotlt : ¬ (((pool.filter fun q => q.difficulty == "advanced").take minAdv).length
        < minAdv) := by omega
    have hmemA : ∀ a ∈ (pool.filter fun q => q.difficulty == "advanced").take minAdv,
        (a.difficulty == "advanced") = true := fun a ha =>
      (List.mem_filter.mp (List.mem_of_mem_take ha)).2
    have keyR : ∀ R : List Question,
        minAdv ≤ (((((pool.filter fun q => q.difficulty == "advanced").take minAdv)
          ++ R).take target).filter fun q => q.difficulty == "advanced").length := by
      intro R
      rw [List.take_append_eq_append_take, List.take_of_length_le (by omega),
        List.filter_append, List.length_append, List.filter_eq_self.mpr hmemA]
      omega
    have key4 : ∀ B C D : List Question,
        minAdv ≤ ((((((((pool.filter fun q => q.difficulty == "advanced").take minAdv)
          ++ B) ++ C) ++ D).take target).filter fun q =>
            q.difficulty == "advanced")).length := by
      intro B C D
      rw [List.append_assoc, List.append_assoc]
      exact keyR (B ++ (C ++ D))
    have key5 : ∀ B C D E : List Question,
        minAdv ≤ (((((((((pool.filter fun q => q.difficulty == "advanced").take minAdv)
          ++ B) ++ C) ++ D) ++ E).take target).filter fun q =>
            q.difficulty == "advanced")).length := by
      intro B C D E
      rw [List.append_assoc, List.append_assoc, List.append_assoc]
      exact keyR (B ++ (C ++ (D ++ E)))
    unfold select_best_questions
    rw [if_neg (by omega)]
    simp only [if_neg hnotlt]
    split
    · exact key5 _ _ _ _
    · exact key4 _ _ _

/-- Witness for C7: on `cxPool` with target 12 and minimum 3, the selection is
bounded by 12 and holds at least 3 advanced-difficulty questions. -/
theorem selector_amended_witness :
    (select_best_questions cxPool 12 3).length ≤ 12
    ∧ 3 ≤ ((select_best_questions cxPool 12 3).filter fun q =>
        q.difficulty == "advanced").length :=
  ⟨(selector_amended cxPool 12 3).1,
   (selector_amended cxPool 12 3).2 (by decide) (by decide) (by decide)⟩

/-- The retry counter of the distribution retry loop never exceeds its starting
value plus the remaining budget. -/
theorem retryLoop_rounds_le (o : Oracle) (ctxs : List TableCtx)
    (semInfo : Option SemInfo) :
    ∀ (fuel attempt : Nat) (acc : List Question),
      (retryLoop o ctxs semInfo fuel attempt acc).2 ≤ attempt + fuel := by
  intro fuel
  induction fuel with
  | zero => intro attempt acc; simp [retryLoop]
  | succ n ih =>
    intro attempt acc
    simp only [retryLoop]
    repeat' split
    all_goals first
      | exact le_trans (ih _ _) (by omega)
      | simp

/-- The retry-round count reported by the core pipeline block is at most 3. -/
theorem pipelineCore_rounds_le (validatedTargets questions : List Question)
    (ctxs : List TableCtx) (semInfo : Option SemInfo) (num : Nat) (o : Oracle) :
    (pipelineCore validatedTargets questions ctxs semInfo num o).retryRounds ≤ 3 := by
  simp only [pipelineCore]
  exact retryLoop_rounds_le o ctxs semInfo 3 0 _

/-- C9 (confirmed): on every run and every sequence of external-service
outcomes (including repeated parse failures and exceptions), the distribution
retry loop of `generate_contextual_questions` executes at most `MAX_RETRIES =
3` retry rounds; the embedding is a total function (the loop recurses on the
remaining budget), so the loop terminates and the pipeline returns the
accumulated questions rather than looping forever or aborting. -/
theorem bounded_retries (targets : List String) (ctxs : List TableCtx)
    (semInfo : Option SemInfo) (num : Nat) (o : Oracle) (out : PipelineOut)
    (h : generate_contextual_questions targets ctxs semInfo num o = .ok out) :
    out.retryRounds ≤ 3 := by
  simp only [generate_contextual_questions] at h
  split at h
  · exact Except.noConfusion h
  · split at h
    · rw [Except.ok.injEq] at h
      subst h
      exact pipelineCore_rounds_le _ _ _ _ _ _
    · rw [Except.ok.injEq] at h
      subst h
      exact Nat.zero_le 3

/-- An oracle whose only productive call is an initial generation of a single
question; every later call fails to parse, so the retry loop runs its full
budget. -/
def cxOracleC9 : Oracle := { gen1 := .parsed [mkq "lone" "analytics" "basic"] }

/-- The pipeline output of the concrete C9 run. -/
def cxOutC9 : PipelineOut :=
  (generate_contextual_questions [] cxCtxs none 12 cxOracleC9).toOption.getD { result := [] }

/-- Witness for C9: the concrete run completes with at most 3 retry rounds. -/
theorem bounded_retries_witness : cxOutC9.retryRounds ≤ 3 :=
  bounded_retries [] cxCtxs none 12 cxOracleC9 cxOutC9 rfl

/-- Oracle for the C2 counterexample run: attempt 1 generates 4 questions and
its validation response fails to parse (fallback), attempt 2 generates 12
questions of which the verdict accepts the first 6; every later call makes no
progress. -/
def cxOracleC2 : Oracle :=
  { gen1 := .parsed [mkq "g1" "analytics" "intermediate", mkq "g2" "analytics" "intermediate",
      mkq "g3" "analytics" "intermediate", mkq "g4" "analytics" "intermediate"],
    val1 := .parseFail,
    gen2 := .parsed [mkq "h1" "analytics" "intermediate", mkq "h2" "analytics" "intermediate",
      mkq "h3" "analytics" "intermediate", mkq "h4" "analytics" "intermediate",
      mkq "h5" "analytics" "intermediate", mkq "h6" "analytics" "intermediate",
      mkq "h7" "analytics" "intermediate", mkq "h8" "analytics" "intermediate",
      mkq "h9" "analytics" "intermediate", mkq "h10" "analytics" "intermediate",
      mkq "h11" "analytics" "intermediate", mkq "h12" "analytics" "intermediate"],
    val2 := .verdict [1, 2, 3, 4, 5, 6] }

/-- Counterexample to C2: in this run attempt 1 records `fallback_used = true`,
yet the reported `final_pass_rate` is 10/12, not 0: the source checks the
fallback flag of the final attempt only (`attempt_2 or attempt_1`), so a
fallback in a non-final validation round does not zero the reported rate. -/
theorem fallback_rate_counterexample :
    ((generate_contextual_questions [] cxCtxs (some { view_name := some "V" }) 12
        cxOracleC2).toOption.map fun out =>
          (out.attempt1.map DebugInfo.fallback_used, out.finalPassRate))
      = some (some true, (10 : ℚ) / 12)
    ∧ ((10 : ℚ) / 12) ≠ 0 := by
  exact ⟨rfl, by norm_num⟩

/-- The `final_pass_rate` computation returns 0 and flags the fallback exactly
when the final attempt (attempt 2 when present, else attempt 1) used the
fallback. -/
theorem computeFinalPassRate_fallback (d1 : DebugInfo) (d2opt : Option DebugInfo)
    (vc num : Nat)
    (hfb : (match d2opt with
            | some d => d.fallback_used
            | none => d1.fallback_used) = true) :
    computeFinalPassRate d1 d2opt vc num = (0, true) := by
  cases d2opt with
  | none => simp only at hfb; simp [computeFinalPassRate, hfb]
  | some d => simp only at hfb; simp [computeFinalPassRate, hfb]

/-- C2 (amended): whenever the *final* validation attempt of the run (attempt 2
when the retry was triggered, else attempt 1) records `fallback_used = true`,
the run's reported `final_pass_rate` is 0 and `used_fallback` is set.  A
fallback in a non-final attempt does not force a zero rate (see the
counterexample). -/
theorem fallback_zero_rate (targets : List String) (ctxs : List TableCtx)
    (semInfo : Option SemInfo) (num : Nat) (o : Oracle) (out : PipelineOut)
    (h : generate_contextual_questions targets ctxs semInfo num o = .ok out)
    (hfb : (match out.attempt2 with
            | some d => d.fallback_used
            | none => (out.attempt1.map DebugInfo.fallback_used).getD false) = true) :
    out.finalPassRate = 0 ∧ out.usedFallback = true := by
  simp only [generate_contextual_questions] at h
  split at h
  · exact Except.noConfusion h
  · split at h
    · rw [Except.ok.injEq] at h
      subst h
      simp only [pipelineCore] at hfb ⊢
      rw [computeFinalPassRate_fallback _ _ _ _ (by
        revert hfb
        cases hd : (if
            (validate_questions_with_llm (runGenerate o.gen1 ctxs) ctxs o.val1).1.length < num then
            (select_best_questions
              ((validate_questions_with_llm (runGenerate o.gen1 ctxs) ctxs o.val1).1 ++
                (validate_questions_with_llm (runGenerate o.gen2 ctxs) ctxs o.val2).1) num 3,
              some (validate_questions_with_llm (runGenerate o.gen2 ctxs) ctxs o.val2).2, true)
          else ((validate_questions_with_llm (runGenerate o.gen1 ctxs) ctxs o.val1).1, none,
            false)).2.1 with
        | none => simp
        | some d => simp)]
      exact ⟨rfl, rfl⟩
    · rw [Except.ok.injEq] at h
      subst h
      simp at hfb

/-- Twelve distinct analytics questions. -/
def cxTwelve : List Question :=
  [mkq "w1" "analytics" "intermediate", mkq "w2" "analytics" "intermediate",
   mkq "w3" "analytics" "intermediate", mkq "w4" "analytics" "intermediate",
   mkq "w5" "analytics" "intermediate", mkq "w6" "analytics" "intermediate",
   mkq "w7" "analytics" "intermediate", mkq "w8" "analytics" "intermediate",
   mkq "w9" "analytics" "intermediate", mkq "w10" "analytics" "intermediate",
   mkq "w11" "analytics" "intermediate", mkq "w12" "analytics" "intermediate"]

/-- Oracle for the C2 witness run: attempt 1 generates 12 questions and the
validator call raises, so the (final) attempt 1 uses the fallback and no retry
is triggered. -/
def cxOracleC2W : Oracle := { gen1 := .parsed cxTwelve, val1 := .err }

/-- The pipeline output of the concrete C2 witness run. -/
def cxOutC2W : PipelineOut :=
  (generate_contextual_questions [] cxCtxs (some { view_name := some "V" }) 12
    cxOracleC2W).toOption.getD { result := [] }

/-- Witness for C2: the concrete fallback run reports a zero pass rate. -/
theorem fallback_zero_rate_witness :
    cxOutC2W.finalPassRate = 0 ∧ cxOutC2W.usedFallback = true :=
  fallback_zero_rate [] cxCtxs (some { view_name := some "V" }) 12 cxOracleC2W cxOutC2W
    rfl rfl

/-- Substring test on the character lists of two strings (true when the second
argument occurs contiguously inside the first). -/
def strContainsAux (pat : List Char) : List Char → Bool
  | [] => pat.isEmpty
  | c :: rest => pat.isPrefixOf (c :: rest) || strContainsAux pat rest

/-- Whether `sub` occurs as a substring of `s`. -/
def strContains (s sub : String) : Bool := strContainsAux sub.data s.data

/-- Oracle for the C1 counterexample run: the target-validation verdict accepts
no question. -/
def cxOracleC1 : Oracle := { targetOutcome := .verdict [] }

/-- Counterexample to C1: the rejected target question text `Does revenue
grow?` does not occur in the raised error: the source raises
`Exception(error_msg)` where `error_msg` holds only the failed/total counts;
the failing texts are shown through `st.error` but are not carried by the
raised error. -/
theorem target_failure_counterexample :
    generate_contextual_questions ["Does revenue grow?"] cxCtxs none 12 cxOracleC1
      = .error (targetErrorMsg 1 1)
    ∧ strContains (targetErrorMsg 1 1) "Does revenue grow?" = false := by
  exact ⟨rfl, by decide⟩

/-- C1 (amended): whenever target questions are supplied with a non-empty
schema context and the validator accepts strictly fewer of them than were
supplied, `generate_contextual_questions` raises (returns `Except.error`) an
error carrying the failed and total counts, and returns no question list - no
partial result is produced.  (The failing texts are displayed separately and
are not carried by the raised error.) -/
theorem target_failure_amended (targets : List String) (ctxs : List TableCtx)
    (semInfo : Option SemInfo) (num : Nat) (o : Oracle)
    (hc : ctxs ≠ []) (ht : targets ≠ [])
    (hfail : (validate_questions_with_llm (targets.map mkTargetQuestion) ctxs
        o.targetOutcome).1.length < targets.length) :
    generate_contextual_questions targets ctxs semInfo num o
      = .error (targetErrorMsg
          (targets.length - (validate_questions_with_llm (targets.map mkTargetQuestion) ctxs
            o.targetOutcome).1.length) targets.length) := by
  have hc' : ctxs.isEmpty = false := by simpa [List.isEmpty_iff] using hc
  have ht' : targets.isEmpty = false := by simpa [List.isEmpty_iff] using ht
  simp only [generate_contextual_questions, hc', ht', Bool.not_false, Bool.and_self,
    if_true, if_pos hfail]

/-- Witness for C1 at the concrete failing run. -/
theorem target_failure_amended_witness :
    generate_contextual_questions ["Does revenue grow?"] cxCtxs (some { view_name := some "V" })
        12 cxOracleC1
      = .error (targetErrorMsg 1 1) := by
  have h := target_failure_amended ["Does revenue grow?"] cxCtxs
    (some { view_name := some "V" }) 12 cxOracleC1 (by decide) (by decide) (by decide)
  exact h

/-- An advanced analytics question whose text is generated twice in one
batch. -/
def qDup : Question := mkq "DUP" "analytics" "advanced"

/-- Oracle for the C8 counterexample run: the initial generation parses the
same question text twice, the verdict accepts both, the semantic test answers
YES, and every later call makes no progress. -/
def cxOracleC8 : Oracle :=
  { gen1 := .parsed [qDup, qDup], val1 := .verdict [1, 2],
    gen2 := .parsed [], val2 := .verdict [] }

/-- Counterexample to C8: a run whose final question list is `[DUP, DUP]` -
two questions with identical `text`.  Nothing in the pipeline deduplicates
generated questions against each other (the denylist of earlier questions is
only a prompt instruction); only target questions are deduplicated against
generated ones. -/
theorem duplicate_texts_counterexample :
    ((generate_contextual_questions [] cxCtxs (some { view_name := some "V" }) 12
        cxOracleC8).toOption.map fun out => out.result.map Question.text)
      = some ["DUP", "DUP"]
    ∧ ¬ (["DUP", "DUP"] : List String).Nodup := by
  exact ⟨rfl, by decide⟩

/-- C8 (amended): the final assembly deduplicates generated questions against
the validated target questions only: in the returned list
`(mergeTargets targets pool).take n`, every question after the target prefix
has a text different from every target question's text.  Duplicate texts among
generated questions themselves can still appear (see the counterexample). -/
theorem merge_targets_amended (targets pool : List Question) (n : Nat) :
    ∀ q ∈ ((mergeTargets targets pool).take n).drop targets.length,
      ∀ t ∈ targets, q.text ≠ t.text := by
  intro q hq t ht
  simp only [mergeTargets] at hq
  rw [List.take_append_eq_append_take] at hq
  by_cases hn : targets.length ≤ n
  · rw [List.take_of_length_le hn, List.drop_left] at hq
    have hqf := List.mem_of_mem_take hq
    have hflt := (List.mem_filter.mp hqf).2
    intro hEq
    rw [Bool.not_eq_eq_eq_not, Bool.not_true] at hflt
    have : (targets.map Question.text).contains q.text = true :=
      List.elem_iff.mpr (List.mem_map.mpr ⟨t, ht, hEq.symm⟩)
    rw [this] at hflt
    cases hflt
  · have h0 : n - targets.length = 0 := by omega
    rw [h0, List.take_zero, List.append_nil] at hq
    rw [List.drop_eq_nil_of_le (by
      have := List.length_take_le n targets
      omega)] at hq
    cases hq

/-- Witness for C8 at a one-target, one-generated-question merge. -/
theorem merge_targets_amended_witness :
    (mkq "G" "analytics" "basic").text ≠ (mkq "T" "analytics" "basic").text :=
  merge_targets_amended [mkq "T" "analytics" "basic"] [mkq "G" "analytics" "basic"] 2
    (mkq "G" "analytics" "basic") (by decide) (mkq "T" "analytics" "basic") (by decide)
